import Mathlib

/-!
Shallow embedding of the UselessGPS core (src/script.js): the sampler,
feature classifier, proximity associator, message composers and the timed
playback engine, together with theorems settling the frozen claims.

Numbers are modelled by `ℚ`.  The haversine distance function
(`haversineMeters` in the source) is trigonometric; the analysis and
playback algorithms are parametric in it (type `Dist`), exactly mirroring
how the source threads `haversineMeters(lat1, lon1, lat2, lon2)` through
the proximity checks.  JavaScript truthiness of tag strings, of node
coordinates and of absent fields is modelled explicitly.
-/

namespace UselessGPS

/-- Config constants of src/script.js. -/
def MAX_SAMPLES : ℤ := 12

def MIN_SAMPLES : ℤ := 4

def MIN_RADIUS : ℚ := 120

def MAX_RADIUS : ℚ := 900

/-- A latitude/longitude pair. -/
structure Coord where
  lat : ℚ
  lon : ℚ
deriving DecidableEq

/-- OSM-style tags used by the classifier; `none` models an absent key. -/
structure Tags where
  natural : Option String := none
  waterway : Option String := none
  landuse : Option String := none
  leisure : Option String := none
  highway : Option String := none
  railway : Option String := none
  building : Option String := none
deriving DecidableEq

/-- JavaScript truthiness of a possibly-absent string value:
`undefined` and the empty string are falsy. -/
def truthyS : Option String → Bool
  | none => false
  | some s => !(s == "")

/-- The flag record of `analyzePath`.  The per-sample flag objects in the
source carry no `error` key; an absent key reads as `false`, which is
modelled by the `error := false` default. -/
structure Flags where
  water : Bool := false
  river : Bool := false
  forest : Bool := false
  park : Bool := false
  highway : Bool := false
  railway : Bool := false
  building : Bool := false
  peak : Bool := false
  error : Bool := false
deriving DecidableEq

/-- The eight semantic categories. -/
inductive Cat where
  | water | river | forest | park | highway | railway | building | peak
deriving DecidableEq

/-- Read the flag of one category. -/
def flagGet (f : Flags) : Cat → Bool
  | Cat.water => f.water
  | Cat.river => f.river
  | Cat.forest => f.forest
  | Cat.park => f.park
  | Cat.highway => f.highway
  | Cat.railway => f.railway
  | Cat.building => f.building
  | Cat.peak => f.peak

/-- The classifier predicates of `analyzePath` (the eight `if` lines
run for each element, both globally and per sample). -/
def catMatch (t : Tags) : Cat → Bool
  | Cat.water => t.natural == some "water"
  | Cat.river => truthyS t.waterway
  | Cat.forest => t.landuse == some "forest"
  | Cat.park => t.leisure == some "park"
  | Cat.highway => truthyS t.highway
  | Cat.railway => truthyS t.railway
  | Cat.building => truthyS t.building
  | Cat.peak => t.natural == some "peak"

/-- A raw Overpass element: tags, way geometry (possibly empty), and the
node coordinates (`none` models an absent `lat`/`lon` field). -/
structure Element where
  tags : Tags
  geometry : List Coord := []
  lat : Option ℚ := none
  lon : Option ℚ := none
deriving DecidableEq

/-- One entry of a sample's `hits` array. -/
structure Hit where
  el : Element
  dist : ℚ
deriving DecidableEq

/-- A sample point with its per-sample flags and hits. -/
structure Sample where
  lat : ℚ
  lon : ℚ
  flags : Flags := {}
  hits : List Hit := []
deriving DecidableEq

/-- The result record of `analyzePath`. -/
structure Analysis where
  flags : Flags
  samples : List Sample
  rawElements : List Element
deriving DecidableEq

/-- Abstract distance function standing for `haversineMeters(lat1, lon1,
lat2, lon2)`; the source algorithms only ever compare its results. -/
abbrev Dist := ℚ → ℚ → ℚ → ℚ → ℚ

/-- `parseFloat(x.toFixed(6))`: round to six decimal places, ties toward
the larger value, as specified for `Number.prototype.toFixed`. -/
def round6 (q : ℚ) : ℚ := ((⌊q * 1000000 + 1 / 2⌋ : ℤ) : ℚ) / 1000000

/-- The sample-point loop of `analyzePath`: `count` linear interpolations
at `t = i/(count+1)` for `i = 1..count`, each coordinate passed through
`toFixed(6)`. -/
def samplePts (start dest : Coord) (n : ℕ) : List Sample :=
  (List.range n).map (fun (i : ℕ) =>
    let t : ℚ := ((i : ℚ) + 1) / ((n : ℚ) + 1)
    { lat := round6 (start.lat + (dest.lat - start.lat) * t)
      lon := round6 (start.lon + (dest.lon - start.lon) * t)
      flags := {}
      hits := [] })

/-- Geometry used for proximity checks: a way's vertex list if present,
else the node's own coordinate — but only when `el.lat && el.lon` is
truthy, i.e. both are present and nonzero. -/
def elemGeom (el : Element) : List Coord :=
  if el.geometry.isEmpty then
    match el.lat, el.lon with
    | some la, some lo => if la ≠ 0 ∧ lo ≠ 0 then [⟨la, lo⟩] else []
    | _, _ => []
  else
    el.geometry

/-- Minimum distance from a sample to any geometry vertex; `none` models
the initial `Infinity` surviving an empty geometry. -/
def minVertexDist (d : Dist) (plat plon : ℚ) (geom : List Coord) : Option ℚ :=
  geom.foldl (fun acc gp =>
    let dv := d plat plon gp.lat gp.lon
    match acc with
    | none => some dv
    | some m => if dv < m then some dv else some m) none

/-- The eight flag-setting `if` lines of `analyzePath`, shared by the
global-flag update and the per-sample update (the source repeats the same
lines in both places). -/
def updateFlags (t : Tags) (f : Flags) : Flags :=
  { f with
    water := f.water || (t.natural == some "water")
    river := f.river || truthyS t.waterway
    forest := f.forest || (t.landuse == some "forest")
    park := f.park || (t.leisure == some "park")
    highway := f.highway || truthyS t.highway
    railway := f.railway || truthyS t.railway
    building := f.building || truthyS t.building
    peak := f.peak || (t.natural == some "peak") }

/-- Per-sample update for one element: if the minimum vertex distance is
within the radius, set the matching flags and append a hit. -/
def updateSample (radius : ℚ) (d : Dist) (el : Element) (p : Sample) : Sample :=
  match minVertexDist d p.lat p.lon (elemGeom el) with
  | none => p
  | some m =>
    if m ≤ radius then
      { p with flags := updateFlags el.tags p.flags, hits := p.hits ++ [⟨el, m⟩] }
    else p

/-- The body of `elements.forEach` in `analyzePath`: update the global
flags from the element's tags, then update every sample. -/
def applyElement (radius : ℚ) (d : Dist) (acc : Flags × List Sample) (el : Element) :
    Flags × List Sample :=
  (updateFlags el.tags acc.1, acc.2.map (updateSample radius d el))

/-- The successful branch of `analyzePath`: build the sample points, fold
every element through the associator, return flags, samples and the raw
elements. -/
def analyzePathOk (start dest : Coord) (n : ℕ) (radius : ℚ) (d : Dist)
    (elements : List Element) : Analysis :=
  let pts := samplePts start dest n
  let res := elements.foldl (applyElement radius d) ({}, pts)
  { flags := res.1, samples := res.2, rawElements := elements }

/-- `analyzePath`, with the awaited fetch/parse modelled as an `Except`:
the `catch` branch returns `{flags:{error:true}, samples:[], rawElements:[]}`. -/
def analyzePath (start dest : Coord) (n : ℕ) (radius : ℚ) (d : Dist)
    (fetched : Except Unit (List Element)) : Analysis :=
  match fetched with
  | Except.error _ => { flags := { error := true }, samples := [], rawElements := [] }
  | Except.ok elements => analyzePathOk start dest n radius d elements

/-- `adaptiveSampleCount`: ceil of km times density 2, clamped by two
successive `if` statements. -/
def adaptiveSampleCount (meters : ℚ) : ℤ :=
  let km := meters / 1000
  let s1 : ℤ := ⌈km * 2⌉
  let s2 : ℤ := if s1 < MIN_SAMPLES then MIN_SAMPLES else s1
  if s2 > MAX_SAMPLES then MAX_SAMPLES else s2

/-- `adaptiveRadius`. -/
def adaptiveRadius (meters : ℚ) : ℚ :=
  max MIN_RADIUS (min MAX_RADIUS (meters / 8))

/-- `composeSummaryMessage`, verbatim first-match chain from the source. -/
def composeSummaryMessage (flags : Flags) (meters : ℚ) : String :=
  let km := meters / 1000
  if flags.error then "Overpass grumbled — analysis failed."
  else if flags.water || flags.river then
    "Route appears watery — you might need a boat. You go swim!"
  else if flags.peak then "Mountains detected — hope you like climbing."
  else if flags.forest then "There\x27s forest along the way — mind the wildlife."
  else if flags.building then "Urban area ahead — honk responsibly."
  else if km < 1 then "Short hop — slippers recommended."
  else "All clearish — still useless, though."

/-- `sensibleMessageForSample`; `none` models a missing sample (the
source's `!sample || !sample.flags` guard). -/
def sensibleMessageForSample (sample : Option Sample) : String :=
  match sample with
  | none => "Just empty air and useless road."
  | some s =>
    let f := s.flags
    if f.water && f.river then "You’re crossing water and river — watch your step or swim!"
    else if f.water then "Water nearby — maybe a boat ride?"
    else if f.river then "A river flows here — maybe a bridge?"
    else if f.peak then "Mountains ahead — get ready for the climb."
    else if f.forest then "Forest surrounds you — watch for wildlife."
    else if f.park then "A peaceful park — perfect for a useless picnic."
    else if f.highway then "Busy highway — cross carefully!"
    else if f.railway then "Railway tracks — stay alert and don’t get caught."
    else if f.building then "Passing through buildings — urban vibes."
    else "Just empty air and useless road."

/-! ## Playback engine (`onSimulate`)

The `setInterval` callback is modelled as a step function on an explicit
state; the timer firing every 25 ms makes the tick counter a clock (a
fire at tick `k` happens `25*k` ms into the run).  Fired commentary
messages are recorded in a log, newest first. -/

/-- Which of the three firing sites produced a message. -/
inductive FKind where
  | prox | sched | final
deriving DecidableEq

/-- One fired commentary message: the tick it fired on, the firing site,
the sample index (proximity site only; `-1` otherwise) and the text. -/
structure Fire where
  tick : ℕ
  kind : FKind
  idx : ℤ
  msg : String
deriving DecidableEq

/-- The constants `onSimulate` derives before starting the timer. -/
structure SimCfg where
  samples : List Sample
  startLat : ℚ
  startLon : ℚ
  destLat : ℚ
  destLon : ℚ
  steps : ℕ
  triggerSteps : List ℕ
  radius : ℚ
  d : Dist

/-- The mutable playback state: `step`, `lastTriggeredSample`,
`nextTriggerIndex`, whether the interval timer is still set, and the log
of fired messages. -/
structure SimState where
  step : ℕ
  last : ℤ
  nextTrig : ℕ
  active : Bool
  log : List Fire
deriving DecidableEq

/-- State right after `onSimulate` installs the timer. -/
def initSimState : SimState := ⟨0, -1, 0, true, []⟩

/-- The `samplePoints.forEach` nearest scan: first strict improvement
wins, starting from `nearestIdx = -1`, `nearestDist = Infinity`. -/
def nearestAux (d : Dist) (clat clon : ℚ) :
    List Sample → ℕ → ℤ × Option ℚ → ℤ × Option ℚ
  | [], _, best => best
  | s :: rest, i, best =>
    let dv := d clat clon s.lat s.lon
    let upd : Bool := match best.2 with
      | none => true
      | some m => dv < m
    nearestAux d clat clon rest (i + 1) (if upd then ((i : ℤ), some dv) else best)

def nearestScan (d : Dist) (clat clon : ℚ) (samples : List Sample) : ℤ × Option ℚ :=
  nearestAux d clat clon samples 0 (-1, none)

/-- The second scan of the scheduled branch, keeping the sample itself. -/
def closestAux (d : Dist) (clat clon : ℚ) :
    List Sample → Option (Sample × ℚ) → Option (Sample × ℚ)
  | [], best => best
  | s :: rest, best =>
    let dv := d clat clon s.lat s.lon
    let upd : Bool := match best with
      | none => true
      | some b => dv < b.2
    closestAux d clat clon rest (if upd then some (s, dv) else best)

def closestScan (d : Dist) (clat clon : ℚ) (samples : List Sample) : Option Sample :=
  (closestAux d clat clon samples none).map Prod.fst

/-- Interpolated marker latitude at the current step (`t = step/steps`). -/
def curLat (cfg : SimCfg) (st : SimState) : ℚ :=
  cfg.startLat + (cfg.destLat - cfg.startLat) * ((st.step : ℚ) / (cfg.steps : ℚ))

/-- Interpolated marker longitude at the current step. -/
def curLon (cfg : SimCfg) (st : SimState) : ℚ :=
  cfg.startLon + (cfg.destLon - cfg.startLon) * ((st.step : ℚ) / (cfg.steps : ℚ))

/-- Nearest sample index and distance at the current tick. -/
def tickNearest (cfg : SimCfg) (st : SimState) : ℤ × Option ℚ :=
  nearestScan cfg.d (curLat cfg st) (curLon cfg st) cfg.samples

/-- The proximity-fire condition of the tick callback:
`nearestIdx !== lastTriggeredSample && nearestIdx !== -1 &&
nearestDist <= triggerRadius`.  No message content is consulted. -/
def proxCond (cfg : SimCfg) (st : SimState) : Bool :=
  let n := tickNearest cfg st
  (n.1 != st.last) && (n.1 != -1) &&
    (match n.2 with
     | none => false
     | some m => m ≤ cfg.radius)

/-- The scheduled-fallback condition: `nextTriggerIndex <
triggerSteps.length && step === triggerSteps[nextTriggerIndex]`. -/
def schedCond (cfg : SimCfg) (st : SimState) : Bool :=
  cfg.triggerSteps[st.nextTrig]? == some st.step

/-- Message the scheduled branch fires. -/
def schedMsg (cfg : SimCfg) (st : SimState) : String :=
  match closestScan cfg.d (curLat cfg st) (curLon cfg st) cfg.samples with
  | some s => sensibleMessageForSample (some s)
  | none => "Enjoy your useless journey!"

/-- One execution of the `setInterval` callback body. -/
def tickBody (cfg : SimCfg) (st : SimState) : SimState :=
  let n := tickNearest cfg st
  let st1 :=
    if proxCond cfg st then
      { st with
        log := ⟨st.step, FKind.prox, n.1,
                sensibleMessageForSample cfg.samples[n.1.toNat]?⟩ :: st.log
        last := n.1 }
    else if schedCond cfg st then
      { st with
        log := ⟨st.step, FKind.sched, -1, schedMsg cfg st⟩ :: st.log
        nextTrig := st.nextTrig + 1 }
    else st
  let st2 := { st1 with step := st1.step + 1 }
  if st2.step > cfg.steps then
    { st2 with
      active := false
      log := ⟨st.step, FKind.final, -1,
              "You reached the destination! What a useless journey."⟩ :: st2.log }
  else st2

/-- A timer tick: once `clearInterval` has run the state is frozen. -/
def tick (cfg : SimCfg) (st : SimState) : SimState :=
  if st.active then tickBody cfg st else st

/-- The state after `n` ticks of a freshly started playback. -/
def runTicks (cfg : SimCfg) : ℕ → SimState
  | 0 => initSimState
  | n + 1 => tick cfg (runTicks cfg n)

/-- `Math.round`. -/
def jsRound (q : ℚ) : ℤ := ⌊q + 1 / 2⌋

/-- `durationMs = Math.min(30000, Math.max(4000, meters * 2))`. -/
def durationMsFor (meters : ℚ) : ℚ := min 30000 (max 4000 (meters * 2))

/-- `steps = Math.max(80, Math.round(durationMs / 25))`. -/
def stepsFor (meters : ℚ) : ℕ := (max 80 (jsRound (durationMsFor meters / 25))).toNat

/-- `msgCount = Math.min(maxMsgs, Math.max(minMsgs, Math.ceil(km / 10)))`. -/
def msgCountFor (meters : ℚ) : ℕ := (min 6 (max 3 ⌈meters / 1000 / 10⌉)).toNat

/-- `triggerSteps[i-1] = Math.floor((steps * i) / (msgCount + 1))` for
`i = 1..msgCount` (natural division is the floor). -/
def triggerStepsFor (meters : ℚ) : List ℕ :=
  (List.range (msgCountFor meters)).map
    (fun i => stepsFor meters * (i + 1) / (msgCountFor meters + 1))

/-- The configuration `onSimulate` builds before its first tick;
`meters = map.distance(start, dest)` is an external collaborator's value
and is passed in. -/
def mkSimCfg (samples : List Sample) (slat slon dlat dlon meters : ℚ) (d : Dist) : SimCfg :=
  { samples := samples
    startLat := slat, startLon := slon, destLat := dlat, destLon := dlon
    steps := stepsFor meters
    triggerSteps := triggerStepsFor meters
    radius := adaptiveRadius meters
    d := d }

/-- Precondition failures of `onSimulate`. -/
inductive SimErr where
  | noRoute | noSamples
deriving DecidableEq

/-- The guards at the top of `onSimulate`: no route line, then no
samples; only past both is a playback configuration constructed. -/
def onSimulateStart (hasLine : Bool) (samples : List Sample)
    (slat slon dlat dlon meters : ℚ) (d : Dist) : Except SimErr SimCfg :=
  if !hasLine then Except.error SimErr.noRoute
  else if samples.isEmpty then Except.error SimErr.noSamples
  else Except.ok (mkSimCfg samples slat slon dlat dlon meters d)

/-! ## Derived observations on the fire log -/

/-- Indices fired by the proximity site, newest first. -/
def proxIdxs (log : List Fire) : List ℤ :=
  (log.filter (fun f => f.kind == FKind.prox)).map Fire.idx

/-- Number of proximity fires in a log. -/
def proxCount (log : List Fire) : ℕ :=
  (log.filter (fun f => f.kind == FKind.prox)).length

/-- Number of completion fires in a log. -/
def finalCount (log : List Fire) : ℕ :=
  (log.filter (fun f => f.kind == FKind.final)).length

/-- Two distinct fires happened less than `ms` milliseconds apart
(ticks are 25 ms apart). -/
def firedWithinMs (log : List Fire) (ms : ℤ) : Bool :=
  log.any (fun f => log.any (fun g =>
    decide (f ≠ g) && decide ((25 * (f.tick : ℤ) - 25 * (g.tick : ℤ)).natAbs < ms.natAbs)))

/-! ## Spec-side formulations for the refinement claims (C7, C8) -/

/-- First match in an ordered priority list wins, else the fallback. -/
def firstMatch : List (Bool × String) → String → String
  | [], dflt => dflt
  | (c, m) :: rest, dflt => if c then m else firstMatch rest dflt

/-- The summary composer as §4.5 of the spec words it: an ordered
first-match priority list (error, water-or-river, peak, forest,
building) over a distance-based fallback. -/
def composeSummarySpec (flags : Flags) (meters : ℚ) : String :=
  firstMatch
    [(flags.error, "Overpass grumbled — analysis failed."),
     (flags.water || flags.river, "Route appears watery — you might need a boat. You go swim!"),
     (flags.peak, "Mountains detected — hope you like climbing."),
     (flags.forest, "There\x27s forest along the way — mind the wildlife."),
     (flags.building, "Urban area ahead — honk responsibly.")]
    (if meters / 1000 < 1 then "Short hop — slippers recommended."
     else "All clearish — still useless, though.")

/-- The per-sample composer as §4.5 of the spec words it: an ordered
first-match priority list over the default message. -/
def composeForSampleSpec (f : Flags) : String :=
  firstMatch
    [(f.water && f.river, "You’re crossing water and river — watch your step or swim!"),
     (f.water, "Water nearby — maybe a boat ride?"),
     (f.river, "A river flows here — maybe a bridge?"),
     (f.peak, "Mountains ahead — get ready for the climb."),
     (f.forest, "Forest surrounds you — watch for wildlife."),
     (f.park, "A peaceful park — perfect for a useless picnic."),
     (f.highway, "Busy highway — cross carefully!"),
     (f.railway, "Railway tracks — stay alert and don’t get caught."),
     (f.building, "Passing through buildings — urban vibes.")]
    "Just empty air and useless road."

/-! ## Helper lemmas -/

lemma flagGet_default (c : Cat) : flagGet {} c = false := by cases c <;> rfl

lemma flagGet_updateFlags (t : Tags) (f : Flags) (c : Cat) :
    flagGet (updateFlags t f) c = (flagGet f c || catMatch t c) := by
  cases c <;> rfl

lemma foldl_applyElement_fst (radius : ℚ) (d : Dist) (elements : List Element)
    (g : Flags) (pts : List Sample) :
    (elements.foldl (applyElement radius d) (g, pts)).1 =
      elements.foldl (fun acc el => updateFlags el.tags acc) g := by
  induction elements generalizing g pts with
  | nil => rfl
  | cons el rest ih => exact ih (updateFlags el.tags g) (pts.map (updateSample radius d el))

lemma flagGet_foldl_global (elements : List Element) (g : Flags) (c : Cat) :
    flagGet (elements.foldl (fun acc el => updateFlags el.tags acc) g) c =
      (flagGet g c || elements.any (fun el => catMatch el.tags c)) := by
  induction elements generalizing g with
  | nil => simp
  | cons el rest ih =>
    simp [List.foldl_cons, ih, flagGet_updateFlags, Bool.or_assoc]

lemma flagGet_updateSample (radius : ℚ) (d : Dist) (el : Element) (p : Sample) (c : Cat)
    (h : flagGet (updateSample radius d el p).flags c = true) :
    flagGet p.flags c = true ∨ catMatch el.tags c = true := by
  unfold updateSample at h
  cases hm : minVertexDist d p.lat p.lon (elemGeom el) with
  | none => rw [hm] at h; exact Or.inl h
  | some m =>
    rw [hm] at h
    dsimp only at h
    by_cases hr : m ≤ radius
    · rw [if_pos hr] at h
      dsimp only at h
      rw [flagGet_updateFlags] at h
      simpa using h
    · rw [if_neg hr] at h; exact Or.inl h

lemma sample_implies_global (radius : ℚ) (d : Dist) (elements : List Element)
    (g : Flags) (pts : List Sample) (c : Cat)
    (hinv : ∀ p ∈ pts, flagGet p.flags c = true → flagGet g c = true) :
    ∀ p ∈ (elements.foldl (applyElement radius d) (g, pts)).2,
      flagGet p.flags c = true →
        flagGet (elements.foldl (applyElement radius d) (g, pts)).1 c = true := by
  induction elements generalizing g pts with
  | nil => simpa using hinv
  | cons el rest ih =>
    simp only [List.foldl_cons]
    apply ih
    intro p hp hflag
    rcases List.mem_map.mp hp with ⟨q, hq, rfl⟩
    rw [flagGet_updateFlags]
    rcases flagGet_updateSample radius d el q c hflag with h | h
    · simp [hinv q hq h]
    · simp [h]

lemma samplePts_flags (start dest : Coord) (n : ℕ) :
    ∀ p ∈ samplePts start dest n, p.flags = {} := by
  intro p hp
  rcases List.mem_map.mp hp with ⟨i, _, rfl⟩
  rfl

/-! ## Claims -/

/-- C3: when the feature fetch throws, `analyzePath` returns exactly the
error flag with empty samples and empty raw elements, and `onSimulate`
started on those samples is rejected at the no-samples guard rather than
constructing a playback configuration. -/
theorem c3_fetch_failure_rejected (start dest : Coord) (n : ℕ) (radius : ℚ) (d : Dist)
    (slat slon dlat dlon meters : ℚ) (d2 : Dist) :
    (analyzePath start dest n radius d (Except.error ())).flags.error = true ∧
    (analyzePath start dest n radius d (Except.error ())).samples = [] ∧
    (analyzePath start dest n radius d (Except.error ())).rawElements = [] ∧
    onSimulateStart true (analyzePath start dest n radius d (Except.error ())).samples
      slat slon dlat dlon meters d2 = Except.error SimErr.noSamples :=
  ⟨rfl, rfl, rfl, rfl⟩

/-- C7: `composeSummaryMessage` agrees everywhere with the spec's
first-match priority chain (error, water-or-river, peak, forest,
building, then the distance fallback at 1 km); it is a pure total
function of its two arguments. -/
theorem c7_compose_summary_priority (flags : Flags) (meters : ℚ) :
    composeSummaryMessage flags meters = composeSummarySpec flags meters := rfl

/-- C8: `sensibleMessageForSample` agrees everywhere with the spec's
per-sample first-match priority chain, and returns the default message
for a missing sample, so it is total. -/
theorem c8_compose_for_sample_priority (s : Sample) :
    sensibleMessageForSample (some s) = composeForSampleSpec s.flags ∧
    sensibleMessageForSample none = "Just empty air and useless road." :=
  ⟨rfl, rfl⟩

/-- C9: the adaptive sample count equals ceil of km times density 2
clamped to `[MIN_SAMPLES, MAX_SAMPLES]`, always lies in that interval,
and is monotone in the distance. -/
theorem c9_adaptive_sample_count (m m' : ℚ) (h : m ≤ m') :
    4 ≤ adaptiveSampleCount m ∧ adaptiveSampleCount m ≤ 12 ∧
    adaptiveSampleCount m ≤ adaptiveSampleCount m' ∧
    adaptiveSampleCount m = min MAX_SAMPLES (max MIN_SAMPLES ⌈m / 1000 * 2⌉) := by
  have hdiv : m / 1000 * 2 ≤ m' / 1000 * 2 := by linarith
  have hc : (⌈m / 1000 * 2⌉ : ℤ) ≤ ⌈m' / 1000 * 2⌉ := Int.ceil_le_ceil hdiv
  simp only [adaptiveSampleCount, MIN_SAMPLES, MAX_SAMPLES]
  refine ⟨?_, ?_, ?_, ?_⟩ <;> (try split_ifs) <;> omega

theorem c9_adaptive_sample_count_witness :
    (0 : ℚ) ≤ 10000 ∧
    (4 ≤ adaptiveSampleCount 0 ∧ adaptiveSampleCount 0 ≤ 12 ∧
     adaptiveSampleCount 0 ≤ adaptiveSampleCount 10000 ∧
     adaptiveSampleCount 0 = min MAX_SAMPLES (max MIN_SAMPLES ⌈(0 : ℚ) / 1000 * 2⌉)) :=
  ⟨by norm_num, c9_adaptive_sample_count 0 10000 (by norm_num)⟩

/-- C1 (amended): a global flag is true iff some returned raw feature's
tags classify to that category, independent of any proximity to the
sample points; every per-sample flag implies the corresponding global
flag, but not conversely. -/
theorem c1_global_flag_aggregation (start dest : Coord) (n : ℕ) (radius : ℚ) (d : Dist)
    (elements : List Element) (c : Cat) :
    (flagGet (analyzePathOk start dest n radius d elements).flags c = true ↔
      ∃ el ∈ elements, catMatch el.tags c = true) ∧
    (∀ p ∈ (analyzePathOk start dest n radius d elements).samples,
      flagGet p.flags c = true →
        flagGet (analyzePathOk start dest n radius d elements).flags c = true) := by
  constructor
  · show flagGet (elements.foldl (applyElement radius d) ({}, samplePts start dest n)).1 c = true ↔ _
    rw [foldl_applyElement_fst, flagGet_foldl_global, flagGet_default]
    simp [List.any_eq_true]
  · apply sample_implies_global
    intro p hp hflag
    rw [samplePts_flags start dest n p hp, flagGet_default] at hflag
    exact absurd hflag (by simp)

/-- The element of the C1 counterexample: tagged `natural=water`, with a
single geometry vertex. -/
def c1Elem : Element := { tags := { natural := some "water" }, geometry := [⟨5, 5⟩] }

/-- The C1 counterexample run: distance function constantly 300 m against
a 200 m radius, so the feature is beyond the radius of every sample. -/
def c1Run : Analysis := analyzePathOk ⟨0, 0⟩ ⟨1, 0⟩ 4 200 (fun _ _ _ _ => 300) [c1Elem]

/-- C1 counterexample: the water feature lies beyond `radiusMeters` of
every sample point (every vertex distance is 300 > 200, and indeed no
sample records any hit or per-sample water flag), yet the global water
flag of the run is true — refuting the claimed equivalence. -/
theorem c1_counterexample :
    c1Run.flags.water = true ∧
    (∀ p ∈ c1Run.samples, p.flags.water = false ∧ p.hits = []) ∧
    (∀ p ∈ c1Run.samples, ∀ g ∈ c1Elem.geometry,
      ¬((fun _ _ _ _ => (300 : ℚ)) p.lat p.lon g.lat g.lon ≤ 200)) := by
  refine ⟨rfl, ?_, ?_⟩ <;> decide

/-- C6 (amended): every generated sample point equals the componentwise
rounding to six decimal places (`toFixed(6)`) of the linear interpolation
at parameter `t = (i+1)/(count+1)`, there are exactly `count` points, and
the interpolation parameters are strictly increasing.  (Exact equality
with the unrounded interpolation, and strict interiority, can fail by
rounding — see the counterexample.) -/
theorem c6_sample_interpolation (start dest : Coord) (n i : ℕ) (h : i < n) :
    (samplePts start dest n).length = n ∧
    (samplePts start dest n)[i]? = some
      { lat := round6 (start.lat + (dest.lat - start.lat) * (((i : ℚ) + 1) / ((n : ℚ) + 1)))
        lon := round6 (start.lon + (dest.lon - start.lon) * (((i : ℚ) + 1) / ((n : ℚ) + 1)))
        flags := {}
        hits := [] } ∧
    ∀ j : ℕ, i < j → j < n →
      ((i : ℚ) + 1) / ((n : ℚ) + 1) < ((j : ℚ) + 1) / ((n : ℚ) + 1) := by
  refine ⟨?_, ?_, ?_⟩
  · unfold samplePts
    rw [List.length_map, List.length_range]
  · unfold samplePts
    rw [List.getElem?_map, List.getElem?_range h]
    rfl
  · intro j hij _
    have hn : (0 : ℚ) < (n : ℚ) + 1 := by positivity
    have hij' : ((i : ℚ) + 1) < ((j : ℚ) + 1) := by exact_mod_cast Nat.succ_lt_succ hij
    rw [div_lt_div_iff₀ hn hn]
    nlinarith

theorem c6_sample_interpolation_witness :
    1 < 4 ∧
    ((samplePts ⟨0, 0⟩ ⟨1, 1⟩ 4).length = 4 ∧
     (samplePts ⟨0, 0⟩ ⟨1, 1⟩ 4)[1]? = some
       { lat := round6 ((0 : ℚ) + (1 - 0) * ((((1 : ℕ) : ℚ) + 1) / (((4 : ℕ) : ℚ) + 1)))
         lon := round6 ((0 : ℚ) + (1 - 0) * ((((1 : ℕ) : ℚ) + 1) / (((4 : ℕ) : ℚ) + 1)))
         flags := {}
         hits := [] } ∧
     ∀ j : ℕ, 1 < j → j < 4 →
       (((1 : ℕ) : ℚ) + 1) / (((4 : ℕ) : ℚ) + 1) < (((j : ℕ) : ℚ) + 1) / (((4 : ℕ) : ℚ) + 1)) :=
  ⟨by decide, c6_sample_interpolation ⟨0, 0⟩ ⟨1, 1⟩ 4 1 (by decide)⟩

/-- C6 counterexample: on the segment from `(0,0)` to `(0.000001, 0)`
with 4 samples, the first generated point rounds to `(0, 0)` — it equals
the start point and differs from the exact interpolation `0.0000002`,
refuting both the exact-equality and the strict-interiority parts of the
claim. -/
theorem c6_counterexample :
    ((samplePts ⟨0, 0⟩ ⟨1 / 1000000, 0⟩ 4)[0]?).map (fun p => (p.lat, p.lon)) =
      some (0, 0) ∧
    (0 : ℚ) ≠ 0 + (1 / 1000000 - 0) * ((0 + 1) / (4 + 1)) := by
  constructor
  · unfold samplePts
    rw [List.getElem?_map, List.getElem?_range (by norm_num : (0 : ℕ) < 4)]
    simp only [Option.map_some']
    rw [Option.some.injEq, Prod.mk.injEq]
    constructor
    · show round6 ((0 : ℚ) + (1 / 1000000 - 0) * ((((0 : ℕ) : ℚ) + 1) / (((4 : ℕ) : ℚ) + 1))) = 0
      rw [round6]
      norm_num
    · show round6 ((0 : ℚ) + (0 - 0) * ((((0 : ℕ) : ℚ) + 1) / (((4 : ℕ) : ℚ) + 1))) = 0
      rw [round6]
      norm_num
  · norm_num

/-- C10: a point feature with empty geometry whose latitude or longitude
is exactly 0 fails the coordinate truthiness check `el.lat && el.lon`, so
its processing step leaves every sample unchanged (no flags, no hits) —
for any distance function, so even when it is within the radius — while
the global flags are still updated from its tags. -/
theorem c10_zero_coordinate_node (radius : ℚ) (d : Dist) (el : Element) (g : Flags)
    (pts : List Sample) (hg : el.geometry = [])
    (h0 : el.lat = some 0 ∨ el.lon = some 0) :
    (applyElement radius d (g, pts) el).2 = pts ∧
    ∀ c, flagGet (applyElement radius d (g, pts) el).1 c = (flagGet g c || catMatch el.tags c) := by
  have hgeom : elemGeom el = [] := by
    unfold elemGeom
    rw [hg]
    simp only [List.isEmpty_nil, if_true]
    rcases h0 with h | h
    · rw [h]
      cases el.lon with
      | none => rfl
      | some lo => simp
    · cases el.lat with
      | none => rfl
      | some la => rw [h]; simp
  have hup : ∀ p, updateSample radius d el p = p := by
    intro p
    unfold updateSample
    rw [hgeom]
    rfl
  constructor
  · show pts.map (updateSample radius d el) = pts
    rw [List.map_congr_left (fun p _ => hup p), List.map_id']
  · intro c
    exact flagGet_updateFlags el.tags g c

/-- The node of the C10 witness: a peak at latitude exactly 0. -/
def c10Elem : Element := { tags := { natural := some "peak" }, lat := some 0, lon := some 50 }

theorem c10_zero_coordinate_node_witness :
    (c10Elem.geometry = [] ∧ (c10Elem.lat = some 0 ∨ c10Elem.lon = some 0)) ∧
    ((applyElement 1000 (fun _ _ _ _ => 0) ({}, [⟨0, 50, {}, []⟩]) c10Elem).2 = [⟨0, 50, {}, []⟩] ∧
     ∀ c, flagGet (applyElement 1000 (fun _ _ _ _ => 0) ({}, [⟨0, 50, {}, []⟩]) c10Elem).1 c =
       (flagGet {} c || catMatch c10Elem.tags c)) :=
  ⟨⟨rfl, Or.inl rfl⟩,
   c10_zero_coordinate_node 1000 (fun _ _ _ _ => 0) c10Elem {} [⟨0, 50, {}, []⟩] rfl (Or.inl rfl)⟩

/-! ## Playback lemmas -/

lemma tick_inactive (cfg : SimCfg) (st : SimState) (h : st.active = false) :
    tick cfg st = st := by
  simp [tick, h]

lemma finalCount_cons (f : Fire) (log : List Fire) :
    finalCount (f :: log) = (if f.kind == FKind.final then 1 else 0) + finalCount log := by
  by_cases h : (f.kind == FKind.final) = true <;>
    simp [finalCount, List.filter_cons, h, Nat.add_comm]

lemma proxCount_cons (f : Fire) (log : List Fire) :
    proxCount (f :: log) = (if f.kind == FKind.prox then 1 else 0) + proxCount log := by
  by_cases h : (f.kind == FKind.prox) = true <;>
    simp [proxCount, List.filter_cons, h, Nat.add_comm]

lemma proxIdxs_cons (f : Fire) (log : List Fire) :
    proxIdxs (f :: log) =
      if f.kind == FKind.prox then f.idx :: proxIdxs log else proxIdxs log := by
  by_cases h : (f.kind == FKind.prox) = true <;>
    simp [proxIdxs, List.filter_cons, h]

lemma tickBody_step (cfg : SimCfg) (st : SimState) :
    (tickBody cfg st).step = st.step + 1 := by
  simp only [tickBody]
  split_ifs <;> rfl

lemma tickBody_active (cfg : SimCfg) (st : SimState) :
    (tickBody cfg st).active = if cfg.steps < st.step + 1 then false else st.active := by
  simp only [tickBody]
  split_ifs <;> rfl

lemma tickBody_finalCount (cfg : SimCfg) (st : SimState) :
    finalCount (tickBody cfg st).log =
      finalCount st.log + (if cfg.steps < st.step + 1 then 1 else 0) := by
  simp only [tickBody]
  split_ifs <;> simp [finalCount_cons] <;> omega

lemma runTicks_below (cfg : SimCfg) (k : ℕ) (hk : k ≤ cfg.steps) :
    (runTicks cfg k).active = true ∧ (runTicks cfg k).step = k ∧
      finalCount (runTicks cfg k).log = 0 := by
  induction k with
  | zero => exact ⟨rfl, rfl, rfl⟩
  | succ k ih =>
    obtain ⟨ha, hs, hf⟩ := ih (Nat.le_of_succ_le hk)
    have hbody : runTicks cfg (k + 1) = tickBody cfg (runTicks cfg k) := by
      show tick cfg (runTicks cfg k) = _
      simp [tick, ha]
    have hnot : ¬(cfg.steps < (runTicks cfg k).step + 1) := by omega
    refine ⟨?_, ?_, ?_⟩
    · rw [hbody, tickBody_active, if_neg hnot, ha]
    · rw [hbody, tickBody_step, hs]
    · rw [hbody, tickBody_finalCount, if_neg hnot, hf]

/-- C4: a started playback terminates: the step counter increments by one
per tick and reaches `totalSteps`; on the tick after that the run
completes — the timer is cleared, exactly one completion message has been
fired, and every later tick leaves the state unchanged, so the completed
transition happens exactly once. -/
theorem c4_playback_terminates (cfg : SimCfg) :
    (runTicks cfg (cfg.steps + 1)).active = false ∧
    (runTicks cfg (cfg.steps + 1)).step = cfg.steps + 1 ∧
    finalCount (runTicks cfg (cfg.steps + 1)).log = 1 ∧
    ∀ m : ℕ, runTicks cfg (cfg.steps + 1 + m) = runTicks cfg (cfg.steps + 1) := by
  obtain ⟨ha, hs, hf⟩ := runTicks_below cfg cfg.steps le_rfl
  have hbody : runTicks cfg (cfg.steps + 1) = tickBody cfg (runTicks cfg cfg.steps) := by
    show tick cfg (runTicks cfg cfg.steps) = _
    simp [tick, ha]
  have hgt : cfg.steps < (runTicks cfg cfg.steps).step + 1 := by omega
  have hact : (runTicks cfg (cfg.steps + 1)).active = false := by
    rw [hbody, tickBody_active, if_pos hgt]
  refine ⟨hact, ?_, ?_, ?_⟩
  · rw [hbody, tickBody_step, hs]
  · rw [hbody, tickBody_finalCount, if_pos hgt, hf]
  · intro m
    induction m with
    | zero => rfl
    | succ m ih =>
      show tick cfg (runTicks cfg (cfg.steps + 1 + m)) = _
      rw [ih, tick_inactive cfg _ hact]

/-- C5 (amended): on an active tick the proximity site fires exactly when
the source's condition holds — the nearest sample index differs from the
last-triggered index, exists, and its distance is within the route's
radius.  The sample's message content is not consulted, so the default
"nothing interesting" message can be fired through the proximity path
(see the counterexample). -/
theorem c5_prox_fire_condition (cfg : SimCfg) (st : SimState) (h : st.active = true) :
    (proxCount (tick cfg st).log = proxCount st.log + 1 ↔ proxCond cfg st = true) := by
  rw [show tick cfg st = tickBody cfg st from by simp [tick, h]]
  by_cases hp : proxCond cfg st = true
  · simp only [tickBody, hp, if_true]
    split_ifs <;> simp [proxCount_cons, hp] <;> omega
  · have hp' : proxCond cfg st = false := by
      cases hcond : proxCond cfg st
      · rfl
      · exact absurd hcond hp
    simp only [tickBody, hp', Bool.false_eq_true, if_false]
    split_ifs <;> simp [proxCount_cons, hp']

def c5Sample : Sample := ⟨0, 0, {}, []⟩

/-- The C5 counterexample configuration: one sample with no flags at all,
distance function constantly 0, so the sample is always nearest and
within the radius. -/
def c5Cfg : SimCfg := mkSimCfg [c5Sample] 0 0 0 0 100 (fun _ _ _ _ => 0)

theorem c5_prox_fire_condition_witness :
    initSimState.active = true ∧
    (proxCount (tick c5Cfg initSimState).log = proxCount initSimState.log + 1 ↔
      proxCond c5Cfg initSimState = true) :=
  ⟨rfl, c5_prox_fire_condition c5Cfg initSimState rfl⟩

@[simp] lemma beq_prox_prox : (FKind.prox == FKind.prox) = true := rfl

@[simp] lemma beq_sched_prox : (FKind.sched == FKind.prox) = false := rfl

@[simp] lemma beq_final_prox : (FKind.final == FKind.prox) = false := rfl

/-- Invariant carried through a run: the proximity-fired indices are
pairwise distinct between neighbours, and the most recent one (if any)
is the current `lastTriggeredSample`. -/
def ProxInv (st : SimState) : Prop :=
  List.Chain' (fun a b => a ≠ b) (proxIdxs st.log) ∧
  ∀ a ∈ (proxIdxs st.log).head?, a = st.last

lemma proxInv_init : ProxInv initSimState := by
  constructor
  · exact List.chain'_nil
  · intro a ha
    simp [initSimState, proxIdxs] at ha

lemma proxCond_ne_last (cfg : SimCfg) (st : SimState) (hp : proxCond cfg st = true) :
    (tickNearest cfg st).1 ≠ st.last := by
  simp only [proxCond, Bool.and_eq_true, bne_iff_ne] at hp
  exact hp.1.1

lemma proxInv_tick (cfg : SimCfg) (st : SimState) (h : ProxInv st) : ProxInv (tick cfg st) := by
  rw [tick]
  split_ifs with ha
  · by_cases hp : proxCond cfg st = true
    · have hne := proxCond_ne_last cfg st hp
      simp only [tickBody, hp, if_true]
      split_ifs with hend <;>
        constructor <;>
          simp only [proxIdxs_cons, beq_prox_prox, beq_sched_prox, beq_final_prox,
            if_true, if_false, Bool.false_eq_true]
      · exact List.chain'_cons'.mpr
          ⟨fun y hy => (h.2 y hy) ▸ hne, h.1⟩
      · intro a ha
        simp only [List.head?_cons, Option.mem_def, Option.some.injEq] at ha
        simp [ha]
      · exact List.chain'_cons'.mpr
          ⟨fun y hy => (h.2 y hy) ▸ hne, h.1⟩
      · intro a ha
        simp only [List.head?_cons, Option.mem_def, Option.some.injEq] at ha
        simp [ha]
    · have hp' : proxCond cfg st = false := by
        cases hcond : proxCond cfg st
        · rfl
        · exact absurd hcond hp
      simp only [tickBody, hp', Bool.false_eq_true, if_false]
      split_ifs with hs hend hend <;>
        constructor <;>
          simp only [proxIdxs_cons, beq_prox_prox, beq_sched_prox, beq_final_prox,
            if_true, if_false, Bool.false_eq_true] <;>
        first
          | exact h.1
          | exact h.2
  · exact h

/-- C2 (amended): de-duplication is by last-fired sample index on the
proximity path only: in any run, two consecutive proximity-triggered
messages always come from distinct sample indices.  There is no
time-based cooldown, and scheduled-fallback messages are neither
rate-limited nor de-duplicated (see the counterexample). -/
theorem c2_consecutive_prox_distinct (cfg : SimCfg) (n : ℕ) :
    List.Chain' (fun a b => a ≠ b) (proxIdxs (runTicks cfg n).log) := by
  have h : ProxInv (runTicks cfg n) := by
    induction n with
    | zero => exact proxInv_init
    | succ n ih => exact proxInv_tick cfg _ ih
  exact h.1

def c2Samples : List Sample := [⟨0, 0, {}, []⟩, ⟨0, 1, {}, []⟩]

/-- Distance function of the C2 counterexample: before latitude 0 is
passed, sample 0 (longitude 0) is nearest; afterwards sample 1 is. -/
def c2D : Dist := fun clat _ _ slon =>
  if slon = 0 then (if clat ≤ 0 then 0 else 5) else (if clat ≤ 0 then 5 else 0)

def c2Cfg : SimCfg := mkSimCfg c2Samples 0 0 160 0 100 c2D

lemma durationMsFor_100 : durationMsFor 100 = 4000 := by
  norm_num [durationMsFor, min_def, max_def]

lemma stepsFor_100 : stepsFor 100 = 160 := by
  have h : jsRound (durationMsFor 100 / 25) = 160 := by
    rw [durationMsFor_100]
    norm_num [jsRound]
  simp only [stepsFor, h]
  omega

lemma msgCountFor_100 : msgCountFor 100 = 3 := by
  have h : ⌈(100 : ℚ) / 1000 / 10⌉ = 1 := by
    rw [Int.ceil_eq_iff]
    norm_num
  simp only [msgCountFor, h]
  omega

lemma triggerStepsFor_100 : triggerStepsFor 100 = [40, 80, 120] := by
  simp only [triggerStepsFor, msgCountFor_100, stepsFor_100]
  rfl

lemma adaptiveRadius_100 : adaptiveRadius 100 = 120 := by
  norm_num [adaptiveRadius, MIN_RADIUS, MAX_RADIUS, min_def, max_def]

lemma c2Cfg_eval : c2Cfg = ⟨c2Samples, 0, 0, 160, 0, 160, [40, 80, 120], 120, c2D⟩ := by
  simp only [c2Cfg, mkSimCfg, stepsFor_100, triggerStepsFor_100, adaptiveRadius_100]

/-- C2 counterexample: in the run started for a 100 m route, proximity
messages fire on ticks 0 and 1 — 25 ms apart, far less than a 3000 ms
cooldown — and the two consecutively fired messages have identical text,
refuting both the cooldown clause and the identical-message clause. -/
theorem c2_counterexample :
    (runTicks c2Cfg 2).log =
      [⟨1, FKind.prox, 1, "Just empty air and useless road."⟩,
       ⟨0, FKind.prox, 0, "Just empty air and useless road."⟩] ∧
    firedWithinMs (runTicks c2Cfg 2).log 3000 = true := by
  have hlog : (runTicks c2Cfg 2).log =
      [⟨1, FKind.prox, 1, "Just empty air and useless road."⟩,
       ⟨0, FKind.prox, 0, "Just empty air and useless road."⟩] := by
    rw [show (2 : ℕ) = 1 + 1 from rfl, runTicks, runTicks, runTicks, c2Cfg_eval]
    norm_num [tick, tickBody, tickNearest, nearestScan, nearestAux,
      curLat, curLon, proxCond, schedCond, schedMsg, closestScan, closestAux,
      sensibleMessageForSample, initSimState, c2Samples, c2D]
  refine ⟨hlog, ?_⟩
  rw [hlog]
  simp [firedWithinMs]

lemma c5Cfg_eval : c5Cfg = ⟨[c5Sample], 0, 0, 0, 0, 160, [40, 80, 120], 120,
    fun _ _ _ _ => 0⟩ := by
  simp only [c5Cfg, mkSimCfg, stepsFor_100, triggerStepsFor_100, adaptiveRadius_100]

/-- C5 counterexample: the single sample has no flags at all, so its
per-sample message is the generic default, yet the proximity path fires
it on the very first tick. -/
theorem c5_counterexample :
    (runTicks c5Cfg 1).log.map (fun f => (f.kind, f.msg)) =
      [(FKind.prox, "Just empty air and useless road.")] ∧
    sensibleMessageForSample (some c5Sample) = "Just empty air and useless road." := by
  constructor
  · rw [runTicks, runTicks, c5Cfg_eval]
    norm_num [tick, tickBody, tickNearest, nearestScan, nearestAux,
      curLat, curLon, proxCond, schedCond, schedMsg, closestScan, closestAux,
      sensibleMessageForSample, initSimState, c5Sample]
  · rfl

end UselessGPS
